import Mathlib

/-!
Verification of the `tpDcc-libs-datalibrary` data-library core against its
natural-language specification.  Shallow embedding of
`tpDcc/libs/datalibrary/core/datalib.py` (the `DataLibrary` class), the file
scanner plugin (`plugins/filescanner.py`) and the `DataPart` contract
(`core/datapart.py`, `data/file.py`).

Conventions of the embedding:
* Python scalar values occurring in field dictionaries are modelled by the
  inductive type `PyVal` (strings, ints, bools, `None`); Python truthiness is
  `pyTruthy`/`isFalsy`.
* Python operations that would raise (`TypeError` from `value in item_value`
  on a non-string container, …) return `Option.none`; ordinary results are
  `some _`.
* Filesystem side-stores are modelled as the list of file / folder names the
  corresponding `os.listdir`-style call (`fileio.get_files`,
  `folder_utils.get_folders`) would return, in listing order; a rename is an
  in-place replacement of the entry, a delete removes it.
* The SQLite main table is modelled as the list of its rows.
-/

namespace DataLib

/-- Python scalar values stored in an item's field dictionary. -/
inductive PyVal where
  | str (s : String)
  | int (n : Int)
  | bool (b : Bool)
  | none
deriving DecidableEq, Repr

/-- A data dictionary (`data` argument of `DataLibrary.match`):
association list from field name to value.  Keys are assumed distinct, as in
a Python `dict`. -/
abbrev Data := List (String × PyVal)

/-- Python truthiness of a `PyVal`: `''`, `0`, `False` and `None` are falsy. -/
def isFalsy : PyVal → Bool
  | .str s => s == ""
  | .int n => n == 0
  | .bool b => !b
  | .none => true

/-- `str.split(sep)` for a one-character separator (the only form the
library uses: `'.'` for file keys, `'/'` for path parts). -/
def splitCharGo (sep : Char) : List Char → List Char → List (List Char)
  | acc, [] => [acc.reverse]
  | acc, c :: cs => if c == sep then acc.reverse :: splitCharGo sep [] cs
      else splitCharGo sep (c :: acc) cs

/-- See `splitCharGo`. -/
def splitChar (sep : Char) (s : String) : List String :=
  (splitCharGo sep [] s.toList).map (fun l => ⟨l⟩)

/-- `a.startswith(b)`. -/
def strStartsWith (a b : String) : Bool := b.toList.isPrefixOf a.toList

/-- `a.endswith(b)`. -/
def strEndsWith (a b : String) : Bool := b.toList.isSuffixOf a.toList

/-- `str.lower()` (ASCII, which covers every string the library compares). -/
def pyLower (s : String) : String := ⟨s.toList.map Char.toLower⟩

/-- `dict.get(key)`: value of the first matching key, `None` when absent. -/
def pyGet (data : Data) (key : String) : PyVal :=
  match data.find? (fun kv => kv.1 == key) with
  | some kv => kv.2
  | Option.none => .none

/-- Python `str()` of a scalar. -/
def pyStr : PyVal → String
  | .str s => s
  | .int n => toString n
  | .bool b => if b then "True" else "False"
  | .none => "None"

/-- Python `repr()` of a scalar (strings quoted), used by `str(dict)`. -/
def pyRepr : PyVal → String
  | .str s => "'" ++ s ++ "'"
  | v => pyStr v

/-- Python `str()` of a data dictionary, used by `match` for the `'*'` key. -/
def pyStrOfData (data : Data) : String :=
  "\x7b" ++ String.intercalate ", "
    (data.map (fun kv => pyRepr (.str kv.1) ++ ": " ++ pyRepr kv.2)) ++ "\x7d"

/-- Substring test: Python `needle in hay` for two strings. -/
def strIn (needle hay : String) : Bool :=
  (List.range (hay.toList.length + 1)).any
    (fun i => needle.toList.isPrefixOf (hay.toList.drop i))

/-- Python `value in item_value` (`match`'s `contains` condition).  Only a
string container accepts the test; every other combination raises
`TypeError`, modelled as `none`. -/
def pyContains (container value : PyVal) : Option Bool :=
  match container, value with
  | .str h, .str n => some (strIn n h)
  | _, _ => Option.none

/-- Python `==` between field values: ints, strings and bools compare
type-sensitively except for Python's `bool`/`int` identification
(`True == 1`). -/
def pyEq : PyVal → PyVal → Bool
  | .str a, .str b => a == b
  | .int a, .int b => a == b
  | .bool a, .bool b => a == b
  | .bool a, .int b => (if a then (1 : Int) else 0) == b
  | .int a, .bool b => a == (if b then (1 : Int) else 0)
  | .none, .none => true
  | _, _ => false

/-- One `(field, condition, value)` filter of a query block. -/
abbrev Filter := String × String × PyVal

/-- One iteration of the filter loop of `DataLibrary.match`
(`datalib.py:99-122`): given the `match` value left by the previous filter,
produce the new `match` value.  Mirrors the source exactly: the `'*'` key
reads `str(data)`, both sides are lowered when they are strings, a falsy
item value forces `match = False` before any condition is looked at, and an
unrecognised condition leaves `match` unchanged. -/
def evalFilterStep (data : Data) (m : Bool) (f : Filter) : Option Bool :=
  let key := f.1
  let cond := f.2.1
  let itemValue0 : PyVal := if key == "*" then .str (pyStrOfData data) else pyGet data key
  let value : PyVal := match f.2.2 with
    | .str s => .str (pyLower s)
    | v => v
  let itemValue : PyVal := match itemValue0 with
    | .str s => .str (pyLower s)
    | v => v
  if isFalsy itemValue then some false
  else if cond == "contains" then pyContains itemValue value
  else if cond == "not_contains" then (pyContains itemValue value).map (fun b => !b)
  else if cond == "is" then some (pyEq value itemValue)
  else if cond == "not" then some (!pyEq value itemValue)
  else if cond == "startswith" then
    match value with
    | .str v => some (strStartsWith (pyStr itemValue) v)
    | _ => Option.none
  else if cond == "endswith" then
    match value with
    | .str v => some (strEndsWith (pyStr itemValue) v)
    | _ => Option.none
  else some m

/-- The filter loop of one query block (`datalib.py:98-127`), including the
short-circuit `break`s: an `'or'` block stops at the first `True`, an
`'and'` block stops at the first `False`. -/
def evalFiltersLoop (data : Data) (op : String) : Bool → List Filter → Option Bool
  | m, [] => some m
  | m, f :: fs => do
      let m' ← evalFilterStep data m f
      if op == "or" && m' then some true
      else if op == "and" && !m' then some false
      else evalFiltersLoop data op m' fs

/-- A query block: `{'operator': …, 'filters': […]}`.  Both keys are read
with `dict.get`, hence optional. -/
structure PyQuery where
  operator : Option String
  filters : Option (List Filter)

/-- The query loop of `DataLibrary.match` (`datalib.py:92-129`): blocks with
a missing or empty `filters` entry are skipped (`if not filters: continue`),
the others contribute one boolean each. -/
def matchLoop (data : Data) : List PyQuery → Option (List Bool)
  | [] => some []
  | q :: qs =>
      let fs := q.filters.getD []
      if fs.isEmpty then matchLoop data qs
      else do
        let m ← evalFiltersLoop data (q.operator.getD "and") false fs
        let rest ← matchLoop data qs
        some (m :: rest)

/-- `DataLibrary.match(data, queries)` (`datalib.py:81-131`): `all(matches)`
over the per-block results. -/
def pyMatch (data : Data) (queries : List PyQuery) : Option Bool :=
  (matchLoop data queries).map (fun l => l.all id)

/-- The per-record loop of `DataLibrary.find_items` (`datalib.py:1772-1797`)
over the `find_data()` mapping: a record whose data matches the query list
contributes `self.get(identifier)` (which may itself be `None`) to the
results, in record order.  `get` is the composite lookup, abstracted. -/
def findItemsLoop {α : Type} (queries : List PyQuery) (get : String → Option α) :
    List (String × Data) → Option (List (Option α))
  | [] => some []
  | (i, d) :: rest => do
      let m ← pyMatch d queries
      let r ← findItemsLoop queries get rest
      some (if m then get i :: r else r)

/-- `DataLibrary.find_items(queries)`: the caller queries are extended with
the registered global queries before matching. -/
def findItems {α : Type} (globalQueries : List PyQuery) (itemsData : List (String × Data))
    (get : String → Option α) (queries : List PyQuery) : Option (List (Option α)) :=
  findItemsLoop (queries ++ globalQueries) get itemsData

/-! ### DataPart binding (`DataLibrary.get`, `datalib.py:496-530`) -/

/-- The slice of a registered `DataPart` class that `DataLibrary.get`
inspects: its class-level `PRIORITY`, its `can_represent(identifier,
only_extension)` classmethod and its declared `supported_dccs()` list. -/
structure DataPlugin where
  PRIORITY : Int
  canRepresent : String → Bool → Bool
  supportedDccs : List String

/-- The plugin loop of `DataLibrary.get` (`datalib.py:511-523`) over
`self._data_plugins` (already sorted by descending `PRIORITY`): each class
whose `can_represent` answers true is bound — unless its non-empty
`supported_dccs()` excludes the running DCC, in which case the source
executes `break`, ending the whole loop.  Returns the list of bound
classes in binding order. -/
def getBindLoop (dccName identifier : String) (onlyExtension : Bool) :
    List DataPlugin → List DataPlugin
  | [] => []
  | p :: ps =>
      if p.canRepresent identifier onlyExtension then
        if !p.supportedDccs.isEmpty && !(p.supportedDccs.contains dccName) then []
        else p :: getBindLoop dccName identifier onlyExtension ps
      else getBindLoop dccName identifier onlyExtension ps

/-- `DataLibrary.get(identifier, only_extension)`: `None` when no class was
bound, otherwise the composite (modelled by its list of bound classes). -/
def get (dccName : String) (plugins : List DataPlugin) (identifier : String)
    (onlyExtension : Bool) : Option (List DataPlugin) :=
  let bound := getBindLoop dccName identifier onlyExtension plugins
  if bound.isEmpty then Option.none else some bound

/-! ### Cleanup of invalid identifiers (`datalib.py:684-695`) -/

/-- `BaseScanner.ScanStatus` (`core/scanner.py:13-22`). -/
inductive ScanStatus where
  | VALID
  | NOT_VALID
  | UNKNOWN
deriving DecidableEq, Repr

/-- The slice of a scanner plugin used by the cleanup step: its
`check(identifier)` classmethod. -/
structure ScanPlugin where
  check : String → ScanStatus

/-- The inner plugin loop of `clean_invalid_identifiers`
(`datalib.py:688-693`): the identifier is marked for removal as soon as one
scanner reports `NOT_VALID` on its formatted identifier or the formatted
identifier is one of the blacklisted ones (then the loop `break`s). -/
def shouldPurge (plugins : List ScanPlugin) (blacklisted : List String)
    (fullIdentifier : String) : Bool :=
  plugins.any (fun p =>
    p.check fullIdentifier == ScanStatus.NOT_VALID || blacklisted.contains fullIdentifier)

/-- `DataLibrary.clean_invalid_identifiers(blacklisted_identifiers)`
(`datalib.py:684-695`): collect the stored identifiers (`find(None)`) to
purge, then `remove` exactly those rows.  `fmt` is `format_identifier`.
(The source first deduplicates the blacklist through `list(set(...))`,
which only permutes it; membership is what the loop tests.)  Returns the
rows remaining in the main table. -/
def clean_invalid_identifiers (plugins : List ScanPlugin) (fmt : String → String)
    (blacklisted : List String) (stored : List String) : List String :=
  let identifiersToRemove := stored.filter (fun i => shouldPurge plugins blacklisted (fmt i))
  stored.filter (fun i => !identifiersToRemove.contains i)

/-! ### File scanner enumeration and the sync scan loop
(`plugins/filescanner.py:36-66`, `datalib.py:605-632`) -/

/-- `path_utils.clean_path` (external `tpDcc.libs.python.path`), modelled
from the spec: identifiers are "path-separator-normalized" — backslashes
become forward slashes and a trailing separator is dropped. -/
def cleanPathStr (s : String) : String :=
  let t := s.toList.map (fun c => if c == '\\' then '/' else c)
  if t.length > 1 && t.getLastD 'x' == '/' then ⟨t.dropLast⟩ else ⟨t⟩

/-- The abstract filesystem a `FileScannerPlugin` walks: `walk` returns the
`os.walk` sequence of `(root, files)` pairs below a location, `listdir` the
direct entries of a directory. -/
structure FileSystem where
  walk : String → List (String × List String)
  listdir : String → List String

/-- `not skip_pattern or not skip_pattern.search(x)`: an entry survives when
no skip regex is configured or the regex does not match.  The compiled
regex is abstracted to its match predicate. -/
def skipOk (skip : Option (String → Bool)) (s : String) : Bool :=
  match skip with
  | Option.none => true
  | some p => !(p s)

/-- `FileScannerPlugin.identifiers(location, skip_pattern, recursive)`
(`filescanner.py:36-66`): the cleaned location itself is yielded first
(when it survives the skip regex), then — recursively — every walked root
and file, or — non-recursively — every direct entry.  `os.path.join` of a
cleaned root and an entry name is their `/`-separated concatenation. -/
def fileScannerIdentifiers (fs : FileSystem) (skip : Option (String → Bool))
    (location : String) (recursive : Bool) : List String :=
  let location := cleanPathStr location
  (if skipOk skip location then [location] else []) ++
    (if recursive then
      (fs.walk location).flatMap (fun rf =>
        let root := cleanPathStr rf.1
        (if skipOk skip root then [root] else []) ++
          rf.2.filterMap (fun fileName =>
            let result := cleanPathStr (root ++ "/" ++ fileName)
            if skipOk skip result then some result else Option.none))
    else
      (fs.listdir location).filterMap (fun fileName =>
        let result := cleanPathStr (location ++ "/" ++ fileName)
        if skipOk skip result then some result else Option.none))

/-- `os.path.normpath(identifier).split(os.sep)` (`datalib.py:615`):
normalised path components — empty and `'.'` components vanish, `'..'`
pops the previous component where possible. -/
def normpathSegs (s : String) : List String :=
  let isAbs := strStartsWith s "/"
  let comps := (splitChar '/' s).foldl
    (fun (acc : List String) seg =>
      if seg == "" || seg == "." then acc
      else if seg == ".." then
        match acc.getLast? with
        | some last => if last != ".." then acc.dropLast else acc ++ [".."]
        | Option.none => if isAbs then acc else acc ++ [".."]
      else acc ++ [seg]) []
  if isAbs then "" :: comps else if comps.isEmpty then ["."] else comps

/-- The per-location scan loop of `DataLibrary.sync` (`datalib.py:610-632`)
over the identifiers one scanner yields: a yield string-equal to the
scanned location is skipped outright, a yield with a blacklisted path
component (`.git`, …) is recorded separately and never written, and every
other yield is upserted (row identifier is its relative form when
`relative_paths` is set) and appended to `scanned_identifiers`.  Returns
`(scanned_identifiers, blacklisted_identifiers)`; the upserted row
identifiers coincide with the first component. -/
def syncScanLocation (blackList : List String) (relativePaths : Bool)
    (getRel : String → String) (location : String) (yields : List String) :
    List String × List String :=
  yields.foldl
    (fun (acc : List String × List String) identifier =>
      if identifier == location then acc
      else if (normpathSegs identifier).any (fun part => blackList.contains part) then
        (acc.1, acc.2 ++ [identifier])
      else
        let stored := if relativePaths then getRel identifier else identifier
        (acc.1 ++ [stored], acc.2))
    ([], [])

/-! ### The full-sync pass sequence (`datalib.py:634-666`) -/

/-- The side-store passes a full `sync()` runs after the row upserts. -/
inductive SyncPass where
  | tags
  | versions
  | metadata
  | thumbs
  | dependencies
deriving DecidableEq, Repr

/-- Observable events of the post-upsert phase of one `sync()` call:
a pass running, a pass logging a warning and skipping itself because its
side-store directory is missing, and the final cleanup step. -/
inductive SyncEvent where
  | ranPass (p : SyncPass)
  | warnSkipped (p : SyncPass)
  | cleanup
deriving DecidableEq, Repr

/-- Which side-store directories exist (`os.path.isdir` on the versions /
metadata / thumbs / dependencies paths). -/
structure SideDirs where
  versionsOk : Bool
  metadataOk : Bool
  thumbsOk : Bool
  dependenciesOk : Bool

/-- `sync_tags` (`datalib.py:822-848`) has no side-store directory
precondition: it always runs. -/
def syncTagsTrace : List SyncEvent := [.ranPass .tags]

/-- `sync_versions` (`datalib.py:894-904`): a missing versions directory
logs a warning and returns; otherwise the pass runs. -/
def syncVersionsTrace (dirOk : Bool) : List SyncEvent :=
  if dirOk then [.ranPass .versions] else [.warnSkipped .versions]

/-- `sync_metadata` (`datalib.py:1168-1178`): same resilience pattern. -/
def syncMetadataTrace (dirOk : Bool) : List SyncEvent :=
  if dirOk then [.ranPass .metadata] else [.warnSkipped .metadata]

/-- `sync_thumbs` (`datalib.py:1053-1063`): same resilience pattern. -/
def syncThumbsTrace (dirOk : Bool) : List SyncEvent :=
  if dirOk then [.ranPass .thumbs] else [.warnSkipped .thumbs]

/-- `sync_dependencies` (`datalib.py:1315-1326`): same resilience pattern. -/
def syncDependenciesTrace (dirOk : Bool) : List SyncEvent :=
  if dirOk then [.ranPass .dependencies] else [.warnSkipped .dependencies]

/-- The trace of the post-upsert phase of `sync(locations, recursive, full)`
(`datalib.py:634-666`): when `full` is set the five passes are invoked
unconditionally in source order — tags, versions, metadata, thumbnails,
dependencies — each deciding internally whether to skip itself; the cleanup
step (`clean_invalid_identifiers`) runs afterwards in every case. -/
def syncTrace (full : Bool) (dirs : SideDirs) : List SyncEvent :=
  (if full then
    syncTagsTrace ++ syncVersionsTrace dirs.versionsOk ++
      syncMetadataTrace dirs.metadataOk ++ syncThumbsTrace dirs.thumbsOk ++
      syncDependenciesTrace dirs.dependenciesOk
  else []) ++ [.cleanup]

/-- Whether the side-store directory a pass needs is available (the tags
pass needs none). -/
def passDirOk (dirs : SideDirs) : SyncPass → Bool
  | .tags => true
  | .versions => dirs.versionsOk
  | .metadata => dirs.metadataOk
  | .thumbs => dirs.thumbsOk
  | .dependencies => dirs.dependenciesOk

/-! ### Tags (`datalib.py:822-861`) and `FileData.mandatory_tags`
(`data/file.py:54-56`) -/

/-- `DataLibrary.tag(identifier, tags)` (`datalib.py:850-861`): the tag
strings actually written to the store — every input tag is written as
`tag.lower()`. -/
def tagWrittenTags (tags : List String) : List String :=
  tags.map (fun t => pyLower t)

/-- The collection phase of `sync_tags` (`datalib.py:827-835`): for each
identifier with a composite (`mandatoryTags i = some l`, the merged
`mandatory_tags()` of its bound DataParts), accumulate `all_tags` and the
`mapped_tags` association.  Identifiers without a composite are skipped. -/
def syncTagsCollect (mandatoryTags : String → Option (List String))
    (identifiers : List String) : List String × List (String × List String) :=
  identifiers.foldl
    (fun (acc : List String × List (String × List String)) identifier =>
      match mandatoryTags identifier with
      | Option.none => acc
      | some expected => (acc.1 ++ expected, acc.2 ++ [(identifier, expected)]))
    ([], [])

/-- The `tag_insert` phase of `sync_tags` (`datalib.py:837-839`): one insert
per element of `set(all_tags)`, written verbatim (no lowering).  Python's
`set` only deduplicates; membership is what the theorems state. -/
def syncTagsInsertedTags (mandatoryTags : String → Option (List String))
    (identifiers : List String) : List String :=
  (syncTagsCollect mandatoryTags identifiers).1.dedup

/-- `os.path.basename` for `/`-separated paths: the part after the last
separator. -/
def basenameStr (s : String) : String :=
  (splitChar '/' s).getLastD s

/-- `os.path.splitext(f)`: split the extension at the last dot, provided a
non-dot character precedes it (so `.bashrc` keeps no extension). -/
def splitext (f : String) : String × String :=
  let cs := f.toList
  let idxs := (List.range cs.length).filter
    (fun i => cs.get? i == some '.' && (cs.take i).any (fun c => c != '.'))
  match idxs.getLast? with
  | some i => (⟨cs.take i⟩, ⟨cs.drop i⟩)
  | Option.none => (f, "")

/-- `FileData.mandatory_tags` (`data/file.py:54-56`): the tuple
`os.path.splitext(os.path.basename(identifier))` — the bare name and the
dotted extension, exactly as they appear in the identifier. -/
def fileDataMandatoryTags (identifier : String) : List String :=
  let p := splitext (basenameStr identifier)
  [p.1, p.2]

/-! ### Side-store migration on rename (`datalib.py:1270-1282`) and the
cascade of `remove` (`datalib.py:433-460`, `1025-1036`, `1137-1150`,
`1284-1297`, `1440-1475`) -/

/-- `os.path.splitext(file)[0].split('.')[0]`: the UUID key a side-store
file name carries (`datalib.py:1277`, `1294`, `1420`, `1451`, …). -/
def sideFileKey (fileName : String) : String :=
  (splitChar '.' (splitext fileName).1).headD ""

/-- `DataLibrary.rename_metadata(uuid, new_uuid)` (`datalib.py:1270-1282`)
on the listing of the metadata directory: the loop renames the first file
whose key equals `uuid` to `'{new_uuid}{ext}'` — where `ext` is
`os.path.splitext(meta_file)[-1]`, i.e. only the final `.json` — and then
`break`s.  Returns the directory listing afterwards. -/
def rename_metadata (uuid newUuid : String) : List String → List String
  | [] => []
  | f :: fs =>
      if sideFileKey f == uuid then (newUuid ++ (splitext f).2) :: fs
      else f :: rename_metadata uuid newUuid fs

/-- `DataLibrary.delete_version(uuid)` (`datalib.py:1025-1036`): every
version folder named by one of the uuids is deleted (no `break`). -/
def delete_version (uuids : List String) (versionFolders : List String) : List String :=
  versionFolders.filter (fun f => !uuids.contains f)

/-- `DataLibrary.delete_thumb(uuid)` (`datalib.py:1137-1150`): the loop
deletes the first thumbnail file whose `os.path.splitext(file)[0]` is one
of the uuids, then `break`s. -/
def delete_thumb (uuids : List String) : List String → List String
  | [] => []
  | f :: fs =>
      if uuids.contains (splitext f).1 then fs
      else f :: delete_thumb uuids fs

/-- `DataLibrary.delete_metadata(uuid)` (`datalib.py:1284-1297`): the loop
deletes the first metadata file whose key is one of the uuids, then
`break`s. -/
def delete_metadata (uuids : List String) : List String → List String
  | [] => []
  | f :: fs =>
      if uuids.contains (sideFileKey f) then fs
      else f :: delete_metadata uuids fs

/-- A dependency side-store file: its name (`'{uuid}.json'`) and its parsed
JSON content, a mapping dependency-uuid → relationship name. -/
abbrev DepFile := String × List (String × String)

/-- First loop of `delete_dependencies` (`datalib.py:1449-1456`): find the
first dependency file whose key is one of the uuids; return its content and
the listing without it. -/
def findDepFile (uuids : List String) : List DepFile → Option (DepFile × List DepFile)
  | [] => Option.none
  | f :: fs =>
      if uuids.contains (sideFileKey f.1) then some (f, fs)
      else
        match findDepFile uuids fs with
        | Option.none => Option.none
        | some (g, rest) => some (g, f :: rest)

/-- Second loop of `delete_dependencies` (`datalib.py:1458-1472`): every
remaining dependency file drops the entries whose key is one of the
uuids. -/
def pruneDepFiles (uuids : List String) (files : List DepFile) : List DepFile :=
  files.map (fun f => (f.1, f.2.filter (fun kv => !uuids.contains kv.1)))

/-- `DataLibrary.delete_dependencies(uuid, recursive)`
(`datalib.py:1440-1475`): delete the first file keyed by one of the uuids
(capturing its content), prune the uuids out of every remaining file, and —
when `recursive` and the captured content is non-empty — recurse on the
content's keys.  The recursion is bounded by the number of files (each
round deletes one file or stops), made explicit by the fuel argument;
`delete_dependencies` supplies enough fuel for every reachable call. -/
def delete_dependencies_go (uuids : List String) (files : List DepFile)
    (recursive : Bool) : Nat → List DepFile
  | 0 => pruneDepFiles uuids files
  | fuel + 1 =>
      match findDepFile uuids files with
      | Option.none => pruneDepFiles uuids files
      | some (deleted, remaining) =>
          let pruned := pruneDepFiles uuids remaining
          if recursive && !deleted.2.isEmpty then
            delete_dependencies_go (deleted.2.map Prod.fst) pruned recursive fuel
          else pruned

/-- See `delete_dependencies_go`. -/
def delete_dependencies (uuids : List String) (files : List DepFile)
    (recursive : Bool) : List DepFile :=
  delete_dependencies_go uuids files recursive (files.length + 1)

/-- The persistent state `remove` acts on: the main-table rows (identifier
and uuid columns) and the four side-store listings. -/
structure LibraryState where
  rows : List (String × String)
  versionFolders : List String
  thumbFiles : List String
  metaFiles : List String
  depFiles : List DepFile
deriving DecidableEq

/-- `DataLibrary.find_uuid(identifier)` on the modelled rows. -/
def find_uuid (rows : List (String × String)) (identifier : String) : Option String :=
  (rows.find? (fun r => r.1 == identifier)).map Prod.snd

/-- The row loop of `DataLibrary.remove` (`datalib.py:442-449`): for each
identifier (after `get_identifier`), read its uuid, delete its row, record
it.  Returns the remaining rows, the removed identifiers and the collected
uuids cached for the side-store deletes. -/
def removeRowsLoop (getIdent : String → String) :
    List String → List (String × String) → List (String × String) × List String × List String
  | [], rows => (rows, [], [])
  | i :: is, rows =>
      let i := getIdent i
      let uuid := find_uuid rows i
      let rows := rows.filter (fun r => r.1 != i)
      let (rows', removed, uuids) := removeRowsLoop getIdent is rows
      (rows', i :: removed,
        match uuid with
        | some u => u :: uuids
        | Option.none => uuids)

/-- `DataLibrary.remove(identifier, recursive)` (`datalib.py:433-460`):
delete the primary rows, then — when any uuid was found — cascade into the
four side-stores in source order (metadata, thumbnail, versions,
dependencies).  Returns the new state and the removed identifiers. -/
def remove (getIdent : String → String) (identifiers : List String) (recursive : Bool)
    (st : LibraryState) : LibraryState × List String :=
  let (rows', removed, uuids) := removeRowsLoop getIdent identifiers st.rows
  if uuids.isEmpty then ({ st with rows := rows' }, removed)
  else
    ({ rows := rows'
       versionFolders := delete_version uuids st.versionFolders
       thumbFiles := delete_thumb uuids st.thumbFiles
       metaFiles := delete_metadata uuids st.metaFiles
       depFiles := delete_dependencies uuids st.depFiles recursive }, removed)

/-- `DataLibrary.find(None)` on the modelled rows: every stored
identifier. -/
def findAll (st : LibraryState) : List String :=
  st.rows.map Prod.fst

/-! ### Relative / absolute identifier normalisation
(`datalib.py:288-308`, `1926-1939`, `1739-1770`)

Identifiers are `/`-separated path strings; this section models them by
their separator-split segment lists (`"/a/b" ↦ ["", "a", "b"]`,
`"./x" ↦ [".", "x"]`), on which the string operations the source uses
(`os.path.isabs`, `relpath`, `join`, `startswith('./')`, `'./' + s`,
`clean_path`) act segmentwise.  `clean_path`'s separator replacement is the
representation itself; what remains of it is dropping a trailing
separator. -/

/-- A path as its list of `/`-separated segments. -/
abbrev PathSegs := List String

/-- `os.path.isabs`: the string starts with the separator, i.e. the first
segment is empty. -/
def isAbs (p : PathSegs) : Bool := p.headD "x" == ""

/-- The segment part of `path_utils.clean_path`: drop a trailing separator
(a trailing empty segment) from a non-root path. -/
def cleanSegs (p : PathSegs) : PathSegs :=
  if p.length > 1 && p.getLastD "x" == "" then p.dropLast else p

/-- The `abspath` normalisation `os.path.relpath` applies to both of its
arguments before comparing them (for an already absolute path `abspath` is
`normpath`), combined with `relpath`'s `[x for x in ….split(sep) if x]`
component filter: empty and `'.'` components vanish, and `'..'` pops the
previous component — at the root it collapses into the root, as
`normpath('/..') == '/'`.  Returns the non-empty component list of the
normalised absolute path. -/
def normAbsComponents (p : PathSegs) : List String :=
  p.foldl
    (fun acc seg =>
      if seg == "" || seg == "." then acc
      else if seg == ".." then acc.dropLast
      else acc ++ [seg]) []

/-- Length of the longest common component prefix
(`os.path.commonprefix` applied to the two component lists). -/
def commonPrefixLen : PathSegs → PathSegs → Nat
  | a :: as_, b :: bs => if a == b then commonPrefixLen as_ bs + 1 else 0
  | _, _ => 0

/-- `os.path.relpath(p, start)` for two absolute segment paths, following
`posixpath.relpath`: normalise both arguments into their non-empty
component lists (`abspath` + the `if x` filter), climb out of the uncommon
part of `start` with `'..'` components, then descend into the uncommon
part of `p`; the empty result is `'.'`. -/
def relpathSegs (p start : PathSegs) : PathSegs :=
  let pList := normAbsComponents p
  let startList := normAbsComponents start
  let c := commonPrefixLen pList startList
  let rel := List.replicate (startList.length - c) ".." ++ pList.drop c
  if rel.isEmpty then ["."] else rel

/-- `os.path.join(dir, id)`: `id` wins when absolute, otherwise the
segments concatenate (the directory is separator-free at the seam). -/
def joinSegs (dir identifier : PathSegs) : PathSegs :=
  if isAbs identifier then identifier else dir ++ identifier

/-- `identifier.startswith('./')` on segments: first segment `'.'` and a
separator after it. -/
def startsWithDotSlash (p : PathSegs) : Bool :=
  p.headD "x" == "." && p.length ≥ 2

/-- `DataLibrary._get_relative_identifier(identifier)`
(`datalib.py:1926-1939`): absolute identifiers are first re-based onto the
library directory with `relpath`; then the result is returned as is when it
already is `'.'` or `'./'`-prefixed, and `'./'`-prefixed otherwise. -/
def get_relative_identifier (dir identifier : PathSegs) : PathSegs :=
  let identifier := if isAbs identifier then cleanSegs (relpathSegs identifier dir) else identifier
  if identifier == ["."] || startsWithDotSlash identifier then identifier
  else cleanSegs ("." :: identifier)

/-- `DataLibrary.get_identifier(identifier)` (`datalib.py:288-295`) in
relative mode (`relative_paths=True`):
`clean_path(self._get_relative_identifier(identifier))`. -/
def get_identifier (relativePaths : Bool) (dir identifier : PathSegs) : PathSegs :=
  cleanSegs (if relativePaths then get_relative_identifier dir identifier else identifier)

/-- `DataLibrary.format_identifier(identifier)` (`datalib.py:297-308`):
strip a leading `'./'`, then `clean_path(os.path.join(directory,
identifier))` in relative mode. -/
def format_identifier (relativePaths : Bool) (dir identifier : PathSegs) : PathSegs :=
  let identifier := if startsWithDotSlash identifier then identifier.drop 1 else identifier
  if relativePaths then cleanSegs (joinSegs dir identifier) else identifier

/-- The synthetic `identifier` / `path` pair `find_data` stores for a row
(`datalib.py:1766-1768`): the stored identifier itself and its
`format_identifier`. -/
def findDataEntry (relativePaths : Bool) (dir identifier : PathSegs) : PathSegs × PathSegs :=
  (identifier, format_identifier relativePaths dir identifier)

/-! ### Concrete instances used by the evaluations below -/

/-- A registered DataPart class of priority 2 that represents every
identifier but declares support for Maya only. -/
def mayaOnlyPlugin : DataPlugin :=
  { PRIORITY := 2, canRepresent := fun _ _ => true, supportedDccs := ["maya"] }

/-- A registered DataPart class of priority 1 that represents every
identifier and declares no DCC restriction. -/
def genericPlugin : DataPlugin :=
  { PRIORITY := 1, canRepresent := fun _ _ => true, supportedDccs := [] }

/-- A library with rows `./a.ma` (uuid `UA`) and `./b.ma` (uuid `UB`), each
with a version folder, a thumbnail and one version-1 metadata file; the
dependency files record the link between the two in both directions, the
shape `DataPart.update_dependencies` maintains. -/
def twoItemState : LibraryState :=
  { rows := [("./a.ma", "UA"), ("./b.ma", "UB")]
    versionFolders := ["UA", "UB"]
    thumbFiles := ["UA.png", "UB.png"]
    metaFiles := ["UA.1.json", "UB.1.json"]
    depFiles := [("UA.json", [("UB", "file")]), ("UB.json", [("UA", "file")])] }

end DataLib

namespace DataLibSpec

open DataLib

/-- C1: evaluation of `rename_metadata` at a store holding the two
documented metadata files `{old_uuid}.{version}.json` of one item.  The
claim requires both to be re-keyed to `newuuid.1.json` / `newuuid.2.json`;
the code instead renames only the first match — to `newuuid.json`, dropping
the version — and leaves `olduuid.2.json` keyed by the old uuid. -/
theorem C1_rename_metadata_at_failing_input :
    rename_metadata "olduuid" "newuuid" ["olduuid.1.json", "olduuid.2.json"] =
      ["newuuid.json", "olduuid.2.json"] ∧
    sideFileKey "olduuid.2.json" = "olduuid" ∧
    "newuuid.1.json" ∉ rename_metadata "olduuid" "newuuid" ["olduuid.1.json", "olduuid.2.json"] ∧
    "newuuid.2.json" ∉ rename_metadata "olduuid" "newuuid" ["olduuid.1.json", "olduuid.2.json"] := by
  decide

/-- C2: evaluation of `remove("./a.ma", recursive=True)` on `twoItemState`,
where `./b.ma` is the single transitive dependent.  The claim requires both
identifiers to vanish from `find(None)` and all four side-stores to hold no
file for either uuid; the code leaves `./b.ma`'s row, version folder,
thumbnail and metadata file untouched (only the dependency files go). -/
theorem C2_remove_recursive_at_failing_input :
    (remove (fun i => i) ["./a.ma"] true twoItemState).1 =
      { rows := [("./b.ma", "UB")]
        versionFolders := ["UB"]
        thumbFiles := ["UB.png"]
        metaFiles := ["UB.1.json"]
        depFiles := [] } ∧
    "./b.ma" ∈ findAll (remove (fun i => i) ["./a.ma"] true twoItemState).1 ∧
    "UB.png" ∈ ((remove (fun i => i) ["./a.ma"] true twoItemState).1).thumbFiles ∧
    "UB.1.json" ∈ ((remove (fun i => i) ["./a.ma"] true twoItemState).1).metaFiles ∧
    "UB" ∈ ((remove (fun i => i) ["./a.ma"] true twoItemState).1).versionFolders := by
  decide

/-- C3: evaluation of `get` with a higher-priority DataPart whose
`supported_dccs()` excludes the running host (`standalone`) ahead of a
matching, unrestricted one.  The claim requires the restricted class to be
excluded without affecting the other; the code's `break` aborts the loop,
so nothing is bound and `get` returns `None` — although the generic class
alone would have produced a composite. -/
theorem C3_unsupported_dcc_aborts_binding :
    get "standalone" [mayaOnlyPlugin, genericPlugin] "./item.ma" false = Option.none ∧
    genericPlugin.canRepresent "./item.ma" false = true ∧
    genericPlugin.supportedDccs = [] ∧
    get "standalone" [genericPlugin] "./item.ma" false = some [genericPlugin] :=
  ⟨rfl, rfl, rfl, rfl⟩

/-- C4: `match` evaluates each block with its declared operator (`'and'`
when the key is absent), a falsy field value never matches under any
condition, string comparison is case-insensitive, and equality is
type-sensitive: the spec's example query matches `{'name': 'circle',
'index': 3}` with the integer `3` and fails with the string `'3'`. -/
theorem C4_match_semantics :
    (∀ (data : Data) (fs : List Filter),
        pyMatch data [⟨Option.none, some fs⟩] = pyMatch data [⟨some "and", some fs⟩]) ∧
    (∀ (data : Data) (key cond : String) (value : PyVal) (m : Bool),
        key ≠ "*" → isFalsy (pyGet data key) = true →
        evalFilterStep data m (key, cond, value) = some false) ∧
    pyMatch [("name", .str "circle"), ("index", .int 3)]
        [⟨some "and", some [("name", "is", .str "circle"), ("index", "is", .int 3)]⟩] =
      some true ∧
    pyMatch [("name", .str "circle"), ("index", .int 3)]
        [⟨some "and", some [("name", "is", .str "circle"), ("index", "is", .str "3")]⟩] =
      some false ∧
    pyMatch [("name", .str "CIRCLE")]
        [⟨some "and", some [("name", "is", .str "circle")]⟩] = some true := by
  refine ⟨fun data fs => rfl, ?_, by decide, by decide, by decide⟩
  intro data key cond value m hkey hfalsy
  have hk : (key == "*") = false := by
    simpa using hkey
  simp only [evalFilterStep, hk, Bool.false_eq_true, if_false]
  rcases h : pyGet data key with s | n | b | _ <;> rw [h] at hfalsy <;>
    simp only [isFalsy, beq_iff_eq] at hfalsy <;>
    simp [h, isFalsy, hfalsy, pyLower]

/-- Closed instance of the falsy-field clause of `C4_match_semantics`: the
field `name` holds the empty string, and the `contains` filter on it
evaluates to `False` even though the previous filter had matched. -/
theorem C4_match_semantics_witness :
    ("name" : String) ≠ "*" ∧
    isFalsy (pyGet [("name", PyVal.str "")] "name") = true ∧
    evalFilterStep [("name", PyVal.str "")] true ("name", "contains", PyVal.str "x") =
      some false :=
  ⟨by decide, by decide,
    C4_match_semantics.2.1 [("name", PyVal.str "")] "name" "contains" (PyVal.str "x") true
      (by decide) (by decide)⟩

/-- C10: `match(data, [])` is `True` for every data dictionary, a query
block with a missing or empty `filters` entry contributes no constraint,
and `find_items` with no caller queries and no registered global queries
yields one entry (the `get` result, possibly `None`) per stored record. -/
theorem C10_empty_query_matches_everything :
    (∀ data : Data, pyMatch data [] = some true) ∧
    (∀ (data : Data) (q : PyQuery) (qs : List PyQuery), q.filters.getD [] = [] →
        pyMatch data (q :: qs) = pyMatch data qs) ∧
    (∀ (α : Type) (itemsData : List (String × Data)) (g : String → Option α),
        findItems [] itemsData g [] = some (itemsData.map (fun p => g p.1))) := by
  refine ⟨fun data => rfl, ?_, ?_⟩
  · intro data q qs h
    simp [pyMatch, matchLoop, h]
  · intro α itemsData g
    induction itemsData with
    | nil => rfl
    | cons hd tl ih =>
        obtain ⟨i, d⟩ := hd
        simp only [findItems, findItemsLoop, pyMatch, matchLoop, List.map_cons] at ih ⊢
        rw [ih]
        rfl

/-- Closed instance of the skipped-block clause of
`C10_empty_query_matches_everything`: a block whose `filters` entry is the
empty list leaves the match result of the remaining query list unchanged. -/
theorem C10_empty_query_witness :
    (PyQuery.mk (some "or") (some [])).filters.getD [] = [] ∧
    pyMatch [("name", PyVal.str "circle")] [⟨some "or", some []⟩] =
      pyMatch [("name", PyVal.str "circle")] [] :=
  ⟨rfl, C10_empty_query_matches_everything.2.1 [("name", PyVal.str "circle")]
    ⟨some "or", some []⟩ [] rfl⟩

/-- C6: within one full `sync()`, the side-store passes run in the fixed
order tags, versions, metadata, thumbnails, dependencies; a missing
side-store directory skips exactly its own pass (with a warning event in
its place, the later passes unaffected), and the cleanup step always runs
last. -/
theorem C6_sync_pass_order (dirs : SideDirs) :
    syncTrace true dirs =
      ([SyncPass.tags, SyncPass.versions, SyncPass.metadata, SyncPass.thumbs,
          SyncPass.dependencies].map
        (fun p => if passDirOk dirs p then SyncEvent.ranPass p else SyncEvent.warnSkipped p)) ++
        [SyncEvent.cleanup] ∧
    (∀ p : SyncPass, SyncEvent.ranPass p ∈ syncTrace true dirs ↔ passDirOk dirs p = true) ∧
    (syncTrace true dirs).getLast? = some SyncEvent.cleanup := by
  obtain ⟨v, m, t, d⟩ := dirs
  cases v <;> cases m <;> cases t <;> cases d <;>
    exact ⟨rfl, fun p => by cases p <;> decide, rfl⟩

/-- Closed instance of `C6_sync_pass_order`: with the versions directory
missing and the other three present, only the versions pass is skipped and
the cleanup step still runs last. -/
theorem C6_sync_pass_order_witness :
    (SyncEvent.ranPass SyncPass.metadata ∈ syncTrace true ⟨false, true, true, true⟩ ↔
      passDirOk ⟨false, true, true, true⟩ SyncPass.metadata = true) ∧
    (syncTrace true ⟨false, true, true, true⟩).getLast? = some SyncEvent.cleanup :=
  ⟨(C6_sync_pass_order ⟨false, true, true, true⟩).2.1 SyncPass.metadata,
    (C6_sync_pass_order ⟨false, true, true, true⟩).2.2⟩

/-- Accumulator form of the collection phase of `sync_tags`: the `all_tags`
list built by the fold is the concatenation of every composite's
`mandatory_tags()` result, in identifier order. -/
theorem syncTagsCollect_fst (mt : String → Option (List String)) :
    ∀ (ids : List String) (acc : List String × List (String × List String)),
      (ids.foldl (fun (acc : List String × List (String × List String)) identifier =>
        match mt identifier with
        | Option.none => acc
        | some expected => (acc.1 ++ expected, acc.2 ++ [(identifier, expected)])) acc).1 =
      acc.1 ++ ids.flatMap (fun i => (mt i).getD [])
  | [], acc => by simp
  | i :: ids, acc => by
      cases h : mt i with
      | none => simp [h, syncTagsCollect_fst mt ids acc]
      | some l => simp [h, syncTagsCollect_fst mt ids _]

/-- C7 counterexample: syncing tags for `MyScene.ma` — whose only bound
DataPart is `FileData`, with `mandatory_tags()` returning
`os.path.splitext(os.path.basename(identifier))` — inserts the tag string
`MyScene` into the tags store, and `MyScene` is not lowercase. -/
theorem C7_sync_tags_counterexample :
    "MyScene" ∈ syncTagsInsertedTags
        (fun _ => some (fileDataMandatoryTags "/lib/MyScene.ma")) ["./MyScene.ma"] ∧
    pyLower "MyScene" ≠ "MyScene" := by
  decide

/-- C7 (amended): tags passed to `tag(identifier, tags)` are written as
their lowercased forms, but the tags contributed by plugins'
`mandatory_tags()` during the `sync_tags` pass are written verbatim —
`sync_tags` inserts exactly the strings the composites return, with no
lowercasing. -/
theorem C7_tags_lowercase_amended :
    (∀ (tags : List String) (t : String),
        t ∈ tagWrittenTags tags ↔ ∃ s ∈ tags, t = pyLower s) ∧
    (∀ (mandatoryTags : String → Option (List String)) (identifiers : List String)
        (t : String),
        t ∈ syncTagsInsertedTags mandatoryTags identifiers ↔
          ∃ i ∈ identifiers, ∃ l, mandatoryTags i = some l ∧ t ∈ l) := by
  constructor
  · intro tags t
    simp [tagWrittenTags, eq_comm]
  · intro mt ids t
    simp only [syncTagsInsertedTags, syncTagsCollect, List.mem_dedup]
    rw [syncTagsCollect_fst mt ids ([], [])]
    simp only [List.nil_append, List.mem_flatMap]
    constructor
    · rintro ⟨i, hi, ht⟩
      cases h : mt i with
      | none => rw [h] at ht; simp at ht
      | some l =>
          rw [h] at ht
          exact ⟨i, hi, l, h, by simpa using ht⟩
    · rintro ⟨i, hi, l, hl, ht⟩
      exact ⟨i, hi, by rw [hl]; simpa using ht⟩

/-- C8: with at least one scanner plugin registered, the cleanup step purges
a previously indexed identifier exactly when some scanner's `check` on its
formatted identifier reports `NOT_VALID` or the formatted identifier is in
the blacklist-detected set; all other identifiers survive in store order,
unchanged. -/
theorem C8_clean_invalid_identifiers (plugins : List ScanPlugin) (fmt : String → String)
    (blacklisted stored : List String) (h : plugins ≠ []) :
    clean_invalid_identifiers plugins fmt blacklisted stored =
      stored.filter (fun i => !shouldPurge plugins blacklisted (fmt i)) ∧
    ∀ i, shouldPurge plugins blacklisted (fmt i) = true ↔
      ((∃ p ∈ plugins, p.check (fmt i) = ScanStatus.NOT_VALID) ∨ fmt i ∈ blacklisted) := by
  constructor
  · apply List.filter_congr
    intro i hi
    have hc : (stored.filter (fun j => shouldPurge plugins blacklisted (fmt j))).contains i =
        shouldPurge plugins blacklisted (fmt i) := by
      by_cases hp : shouldPurge plugins blacklisted (fmt i) = true
      · rw [hp]
        have : i ∈ stored.filter (fun j => shouldPurge plugins blacklisted (fmt j)) :=
          List.mem_filter.2 ⟨hi, hp⟩
        exact List.elem_iff.2 this
      · simp only [Bool.not_eq_true] at hp
        simp [List.elem_iff, List.mem_filter, hp]
    rw [hc]
  · intro i
    simp only [shouldPurge, List.any_eq_true, Bool.or_eq_true, beq_iff_eq, List.elem_iff]
    constructor
    · rintro ⟨p, hp, hc | hb⟩
      · exact Or.inl ⟨p, hp, hc⟩
      · exact Or.inr hb
    · rintro (⟨p, hp, hc⟩ | hb)
      · exact ⟨p, hp, Or.inl hc⟩
      · match plugins, h with
        | p :: ps, _ => exact ⟨p, List.mem_cons_self p ps, Or.inr hb⟩

/-- Closed instance of `C8_clean_invalid_identifiers`: one scanner that
reports `NOT_VALID` for everything empties a one-row store. -/
theorem C8_clean_invalid_identifiers_witness :
    ([⟨fun _ => ScanStatus.NOT_VALID⟩] : List ScanPlugin) ≠ [] ∧
    clean_invalid_identifiers [⟨fun _ => ScanStatus.NOT_VALID⟩] (fun s => s) [] ["./a.ma"] =
      ["./a.ma"].filter
        (fun i => !shouldPurge [⟨fun _ => ScanStatus.NOT_VALID⟩] [] ((fun s => s) i)) :=
  ⟨by simp,
    (C8_clean_invalid_identifiers [⟨fun _ => ScanStatus.NOT_VALID⟩] (fun s => s) [] ["./a.ma"]
      (by simp)).1⟩

/-- A fold ignores the elements its step function fixes: folding over a
list equals folding over the list with those elements filtered out. -/
theorem foldl_eq_foldl_filter_of_skipped {α β : Type} (f : β → α → β) (p : α → Bool)
    (hf : ∀ b a, p a = false → f b a = b) :
    ∀ (l : List α) (acc : β), l.foldl f acc = (l.filter p).foldl f acc
  | [], _ => rfl
  | a :: l, acc => by
      by_cases h : p a = true
      · simp [List.filter_cons, h, foldl_eq_foldl_filter_of_skipped f p hf l]
      · simp only [Bool.not_eq_true] at h
        simp [List.filter_cons, h, hf acc a h, foldl_eq_foldl_filter_of_skipped f p hf l]

/-- C9: in the scan loop of `sync()`, a yielded identifier string-equal to
the scanned location is never upserted and never enters the returned
`scanned_identifiers` (removing all such yields changes nothing) — even
though `FileScannerPlugin.identifiers` yields the cleaned location itself
as its first result whenever it survives the skip regex. -/
theorem C9_location_yield_never_upserted :
    (∀ (blackList : List String) (relativePaths : Bool) (getRel : String → String)
        (location : String) (yields : List String),
        syncScanLocation blackList relativePaths getRel location yields =
          syncScanLocation blackList relativePaths getRel location
            (yields.filter (fun y => !(y == location)))) ∧
    (∀ (fs : FileSystem) (skip : Option (String → Bool)) (location : String)
        (recursive : Bool),
        skipOk skip (cleanPathStr location) = true →
        (fileScannerIdentifiers fs skip location recursive).head? =
          some (cleanPathStr location)) := by
  constructor
  · intro bl rp getRel location yields
    unfold syncScanLocation
    apply foldl_eq_foldl_filter_of_skipped
    intro b a ha
    simp only [Bool.not_eq_false'] at ha
    simp [ha]
  · intro fs skip location recursive h
    unfold fileScannerIdentifiers
    simp [h]

/-- Closed instance of `C9_location_yield_never_upserted`: scanning the
location `/data` with no skip regex yields `/data` itself first. -/
theorem C9_location_yield_witness :
    skipOk Option.none (cleanPathStr "/data") = true ∧
    (fileScannerIdentifiers ⟨fun _ => [], fun _ => []⟩ Option.none "/data" true).head? =
      some (cleanPathStr "/data") :=
  ⟨rfl,
    C9_location_yield_never_upserted.2 ⟨fun _ => [], fun _ => []⟩ Option.none "/data" true rfl⟩

/-- The common segment prefix of a path and one of its ancestors is the
whole ancestor. -/
theorem commonPrefixLen_append : ∀ (d r : List String), commonPrefixLen (d ++ r) d = d.length
  | [], r => by cases r <;> rfl
  | a :: d, r => by
      simp [commonPrefixLen, commonPrefixLen_append d r]

/-- The normalisation step of `relpath` fixes components that are not
`''`, `'.'` or `'..'`: folding it over a clean component list appends every
component. -/
theorem normAbsComponents_foldl_clean :
    ∀ (l : List String), "" ∉ l → "." ∉ l → ".." ∉ l → ∀ acc : List String,
      (l.foldl (fun acc seg =>
        if seg == "" || seg == "." then acc
        else if seg == ".." then acc.dropLast
        else acc ++ [seg]) acc) = acc ++ l
  | [], _, _, _, acc => by simp
  | a :: l, he, hd, hp, acc => by
      have ha1 : (a == "") = false :=
        beq_eq_false_iff_ne.mpr (fun e => he (e ▸ List.mem_cons_self a l))
      have ha2 : (a == ".") = false :=
        beq_eq_false_iff_ne.mpr (fun e => hd (e ▸ List.mem_cons_self a l))
      have ha3 : (a == "..") = false :=
        beq_eq_false_iff_ne.mpr (fun e => hp (e ▸ List.mem_cons_self a l))
      have he' : "" ∉ l := fun m => he (List.mem_cons_of_mem a m)
      have hd' : "." ∉ l := fun m => hd (List.mem_cons_of_mem a m)
      have hp' : ".." ∉ l := fun m => hp (List.mem_cons_of_mem a m)
      rw [show (a :: l).foldl (fun acc seg =>
            if seg == "" || seg == "." then acc
            else if seg == ".." then acc.dropLast
            else acc ++ [seg]) acc = l.foldl (fun acc seg =>
            if seg == "" || seg == "." then acc
            else if seg == ".." then acc.dropLast
            else acc ++ [seg]) (acc ++ [a]) from by
          rw [List.foldl_cons]
          congr 1
          rw [ha1, ha2, ha3, Bool.or_self, if_neg Bool.false_ne_true,
            if_neg Bool.false_ne_true]]
      rw [normAbsComponents_foldl_clean l he' hd' hp' (acc ++ [a])]
      simp

/-- `abspath` normalisation of a clean absolute path (`"" :: l` is
`/` followed by the components `l`) is the identity on its components. -/
theorem normAbsComponents_cons_clean (l : List String) (h1 : "" ∉ l) (h2 : "." ∉ l)
    (h3 : ".." ∉ l) : normAbsComponents ("" :: l) = l := by
  unfold normAbsComponents
  rw [List.foldl_cons]
  simpa using normAbsComponents_foldl_clean l h1 h2 h3 []

/-- `relpath` of a clean absolute path against a clean ancestor directory
is the remaining segments. -/
theorem relpathSegs_append {ds r : List String} (hne : r ≠ [])
    (hds1 : "" ∉ ds) (hds2 : "." ∉ ds) (hds3 : ".." ∉ ds)
    (hr1 : "" ∉ r) (hr2 : "." ∉ r) (hr3 : ".." ∉ r) :
    relpathSegs (("" :: ds) ++ r) ("" :: ds) = r := by
  have hpl : normAbsComponents (("" :: ds) ++ r) = ds ++ r := by
    rw [List.cons_append]
    exact normAbsComponents_cons_clean (ds ++ r)
      (by simp [List.mem_append, hds1, hr1]) (by simp [List.mem_append, hds2, hr2])
      (by simp [List.mem_append, hds3, hr3])
  have hsl : normAbsComponents ("" :: ds) = ds :=
    normAbsComponents_cons_clean ds hds1 hds2 hds3
  unfold relpathSegs
  rw [hpl, hsl]
  dsimp only
  rw [commonPrefixLen_append]
  simp [List.drop_left, hne]

/-- `clean_path` is the identity on a path whose last segment is not empty
(no trailing separator). -/
theorem cleanSegs_of_last_ne {p : PathSegs} (h : p.getLastD "x" ≠ "") :
    cleanSegs p = p := by
  unfold cleanSegs
  rw [beq_eq_false_iff_ne.mpr h, Bool.and_false, if_neg (by simp)]

/-- C5: with `relative_paths=True`, `get_identifier` and
`format_identifier` are mutually inverse over one root: for a cleaned
absolute path under the cleaned library directory (`("" :: ds) ++ rest`,
where neither the directory nor the remaining segments contain the
non-normalised components `''`, `'.'` or `'..'`, and the remainder is
non-empty), `format_identifier (get_identifier p) = p`; for a stored
`./`-prefixed relative identifier, `get_identifier (format_identifier r)
= r`; and the `identifier`/`path` pair stored by `find_data` resolves back
to the stored identifier. -/
theorem C5_identifier_roundtrip (ds rest : List String) (hne : rest ≠ [])
    (hdse : "" ∉ ds) (hdsd : "." ∉ ds) (hdsp : ".." ∉ ds)
    (hslash : "" ∉ rest) (hdot : "." ∉ rest) (hpar : ".." ∉ rest) :
    format_identifier true ("" :: ds)
        (get_identifier true ("" :: ds) (("" :: ds) ++ rest)) = ("" :: ds) ++ rest ∧
    get_identifier true ("" :: ds)
        (format_identifier true ("" :: ds) ("." :: rest)) = "." :: rest ∧
    get_identifier true ("" :: ds) (findDataEntry true ("" :: ds) ("." :: rest)).2 =
      (findDataEntry true ("" :: ds) ("." :: rest)).1 := by
  obtain ⟨lastR, hlast⟩ : ∃ a, rest.getLast? = some a := by
    cases hr : rest.getLast? with
    | some a => exact ⟨a, rfl⟩
    | none => exact absurd (List.getLast?_eq_none_iff.mp hr) hne
  have hlastmem : lastR ∈ rest := List.mem_of_mem_getLast? hlast
  have hlastne : lastR ≠ "" := fun e => hslash (e ▸ hlastmem)
  have hrestLastD : rest.getLastD "x" = lastR := by
    rw [List.getLastD_eq_getLast?, hlast]; rfl
  have happendLastD : ∀ l : List String, (l ++ rest).getLastD "x" = lastR := fun l => by
    rw [List.getLastD_eq_getLast?, List.getLast?_append_of_ne_nil l hne, hlast]; rfl
  have hconsLastD : ("." :: rest).getLastD "x" = lastR := by
    rw [show ("." :: rest) = ["."] ++ rest from rfl]
    exact happendLastD ["."]
  have hrestAbs : isAbs rest = false := by
    cases rest with
    | nil => exact absurd rfl hne
    | cons a l =>
        have ha : a ≠ "" := fun e => hslash (e ▸ List.mem_cons_self a l)
        simp [isAbs, ha]
  have hrestDotEq : (rest == ["."]) = false := by
    rw [beq_eq_false_iff_ne]
    intro e
    rw [e] at hdot
    simp at hdot
  have hrestStarts : startsWithDotSlash rest = false := by
    cases rest with
    | nil => rfl
    | cons a l =>
        have ha : a ≠ "." := fun e => hdot (e ▸ List.mem_cons_self a l)
        simp [startsWithDotSlash, ha]
  have ecr : cleanSegs rest = rest :=
    cleanSegs_of_last_ne (by rw [hrestLastD]; exact hlastne)
  have econs : cleanSegs ("." :: rest) = "." :: rest :=
    cleanSegs_of_last_ne (by rw [hconsLastD]; exact hlastne)
  have eapp : cleanSegs (("" :: ds) ++ rest) = ("" :: ds) ++ rest :=
    cleanSegs_of_last_ne (by rw [happendLastD ("" :: ds)]; exact hlastne)
  have habs : isAbs (("" :: ds) ++ rest) = true := rfl
  have hrel : get_relative_identifier ("" :: ds) (("" :: ds) ++ rest) = "." :: rest := by
    unfold get_relative_identifier
    rw [if_pos habs, relpathSegs_append hne hdse hdsd hdsp hslash hdot hpar, ecr]
    dsimp only
    rw [if_neg (by simp [hrestDotEq, hrestStarts]), econs]
  have hget : get_identifier true ("" :: ds) (("" :: ds) ++ rest) = "." :: rest := by
    unfold get_identifier
    rw [if_pos rfl, hrel, econs]
  have hfmt : format_identifier true ("" :: ds) ("." :: rest) = ("" :: ds) ++ rest := by
    have hsw : startsWithDotSlash ("." :: rest) = true := by
      have hlen : 1 ≤ rest.length := List.length_pos.mpr hne
      simp only [startsWithDotSlash, List.headD_cons, beq_self_eq_true, Bool.true_and,
        List.length_cons, decide_eq_true_eq]
      omega
    unfold format_identifier
    rw [if_pos hsw]
    have hdrop : List.drop 1 ("." :: rest) = rest := rfl
    rw [hdrop, if_pos rfl]
    unfold joinSegs
    rw [if_neg (by rw [hrestAbs]; exact Bool.false_ne_true), eapp]
  exact ⟨by rw [hget, hfmt], by rw [hfmt, hget], by
    show get_identifier true ("" :: ds) (format_identifier true ("" :: ds) ("." :: rest)) =
      "." :: rest
    rw [hfmt, hget]⟩

/-- Closed instance of `C5_identifier_roundtrip`: the path
`/lib/proj/a.ma` under the library directory `/lib` round-trips through
`get_identifier` and `format_identifier`. -/
theorem C5_identifier_roundtrip_witness :
    (["proj", "a.ma"] : List String) ≠ [] ∧
    (".." : String) ∉ (["proj", "a.ma"] : List String) ∧
    format_identifier true ["", "lib"]
        (get_identifier true ["", "lib"] (["", "lib"] ++ ["proj", "a.ma"])) =
      ["", "lib"] ++ ["proj", "a.ma"] :=
  ⟨by decide, by decide,
    (C5_identifier_roundtrip ["lib"] ["proj", "a.ma"] (by decide) (by decide) (by decide)
      (by decide) (by decide) (by decide) (by decide)).1⟩

end DataLibSpec
